import Mathlib

/-!
Shallow embedding of `src/combined-server.ts` (class `CombinedMCPServer`).

The registry state of the class is four JavaScript `Record` objects:
`mcpTransports`, `mcpServers` (two-level: apiKey -> sessionId -> value),
`sseTransports` (two-level) and `sseServers` (one-level: apiKey -> value).
A JS `Record<string, A>` is embedded as an association list with unique keys:
property read is `Rec.get` (returning `none` for `undefined`), property
assignment is `Rec.set` (insert or overwrite), and the `delete` operator is
`Rec.del` (a no-op on an absent key).

Transport and server (protocol handler) instances are identified by `Nat` ids
drawn from counters in the state, so that instance identity and sharing are
observable.  The external SDK behaviour that the handlers rely on is inlined
where the callbacks of this repository run:

* `StreamableHTTPServerTransport.handleRequest` on an initialize request
  generates the session id (via the `sessionIdGenerator` the repository
  supplies, i.e. `randomUUID`), stores it on the transport, and invokes the
  `onsessioninitialized` callback supplied by this repository.  The generated id is
  passed to the embedded handler as the parameter `freshSid`.
* `SSEServerTransport` exposes its generated session id synchronously at
  construction; it is likewise passed in as `freshSid`.

JS truthiness tests on strings (`if (!apiKey)`, `sessionId && ...`) are
embedded as emptiness tests; `undefined` becomes `Option.none`.
-/

namespace AnyCrawl

/-- A JavaScript `Record<string, A>`: an association list with unique keys. -/
abbrev Rec (α : Type) := List (String × α)

/-- Property read: `r[k]`, `none` when the property is absent (`undefined`). -/
def Rec.get {α : Type} : Rec α → String → Option α
  | [], _ => none
  | (k1, v) :: r, k => if k1 = k then some v else Rec.get r k

/-- Property assignment `r[k] = v`: overwrites an existing binding, otherwise
appends a new one. -/
def Rec.set {α : Type} : Rec α → String → α → Rec α
  | [], k, v => [(k, v)]
  | (k1, v1) :: r, k, v => if k1 = k then (k, v) :: r else (k1, v1) :: Rec.set r k v

/-- The `delete r[k]` operator: removes the binding when present, a silent
no-op when absent. -/
def Rec.del {α : Type} : Rec α → String → Rec α
  | [], _ => []
  | (k1, v1) :: r, k => if k1 = k then Rec.del r k else (k1, v1) :: Rec.del r k

@[simp] theorem Rec.get_set_self {α : Type} (r : Rec α) (k : String) (v : α) :
    (Rec.set r k v).get k = some v := by
  induction r with
  | nil => simp [Rec.set, Rec.get]
  | cons p r ih =>
    by_cases h : p.1 = k <;> simp [Rec.set, Rec.get, h, ih]

theorem Rec.get_set_ne {α : Type} (r : Rec α) (k k1 : String) (v : α)
    (h : k1 ≠ k) : (Rec.set r k v).get k1 = r.get k1 := by
  have hk : ¬ (k = k1) := fun hh => h hh.symm
  induction r with
  | nil => simp [Rec.set, Rec.get, hk]
  | cons p r ih =>
    obtain ⟨pk, pv⟩ := p
    by_cases hp : pk = k
    · subst hp
      simp [Rec.set, Rec.get, hk]
    · simp [Rec.set, Rec.get, hp, ih]

@[simp] theorem Rec.get_del_self {α : Type} (r : Rec α) (k : String) :
    (Rec.del r k).get k = none := by
  induction r with
  | nil => simp [Rec.del, Rec.get]
  | cons p r ih =>
    by_cases h : p.1 = k <;> simp [Rec.del, Rec.get, h, ih]

theorem Rec.get_del_ne {α : Type} (r : Rec α) (k k1 : String)
    (h : k1 ≠ k) : (Rec.del r k).get k1 = r.get k1 := by
  induction r with
  | nil => simp [Rec.del]
  | cons p r ih =>
    obtain ⟨pk, pv⟩ := p
    by_cases hp : pk = k
    · subst hp
      have hk1 : ¬ (pk = k1) := fun hh => h hh.symm
      simp [Rec.del, Rec.get, hk1, ih]
    · simp [Rec.del, Rec.get, hp, ih]

@[simp] theorem Rec.del_del {α : Type} (r : Rec α) (k : String) :
    (Rec.del r k).del k = Rec.del r k := by
  induction r with
  | nil => simp [Rec.del]
  | cons p r ih =>
    by_cases h : p.1 = k <;> simp [Rec.del, h, ih]

@[simp] theorem Rec.set_set {α : Type} (r : Rec α) (k : String) (v w : α) :
    Rec.set (Rec.set r k v) k w = Rec.set r k w := by
  induction r with
  | nil => simp [Rec.set]
  | cons p r ih =>
    by_cases h : p.1 = k <;> simp [Rec.set, h, ih]

/-- JS truthiness of a `string | undefined` value: `undefined` and the empty
string are falsy. -/
def truthy : Option String → Bool
  | none => false
  | some s => !s.isEmpty

/-- The registry state of a `CombinedMCPServer` instance.  Transport ids are
drawn from `nextTransport`, server (protocol handler) ids from `nextServer`.
`bindings` records each `server.connectTransport(transport)` call as a
`(transport id, server id)` pair, so handler sharing is observable. -/
structure St where
  mcpTransports : Rec (Rec Nat)
  mcpServers : Rec (Rec Nat)
  sseTransports : Rec (Rec Nat)
  sseServers : Rec Nat
  nextTransport : Nat
  nextServer : Nat
  bindings : List (Nat × Nat)
  deriving DecidableEq, Repr

/-- The state of a freshly constructed `CombinedMCPServer`: all four records
empty. -/
def St.empty : St := ⟨[], [], [], [], 0, 0, []⟩

/-- An inbound HTTP request, as the handlers read it: the `:apiKey` path
parameter, the `mcp-session-id` header, the `sessionId` query parameter, the
SDK predicate `isInitializeRequest(req.body)` (opaque to this repository), and
an opaque body identity used to state that the very same request is
forwarded. -/
structure Req where
  apiKey : String
  sessionHeader : Option String
  sessionQuery : Option String
  isInit : Bool
  body : Nat
  deriving DecidableEq, Repr

/-- Outcome of `handleMcpPost` (lines 65-124). -/
inductive McpPostRes
  | errApiKey
  | forwarded (t : Nat)
  | created (t : Nat) (srv : Nat) (sid : String)
  | errNoSession
  deriving DecidableEq, Repr

/-- Result record of `handleMcpPost`: the registry state after the call, the
outcome, and the list of `transport.handleRequest(req, ...)` forwards made
(as `(transport id, request)` pairs). -/
structure McpPostOut where
  state : St
  res : McpPostRes
  forwards : List (Nat × Req)
  deriving DecidableEq, Repr

/-- The `onsessioninitialized` callback (lines 90-96): creates the per-tenant
sub-records when the transport record for this tenant is absent (note that it
also resets `mcpServers[apiKey]` in that case), then stores the new transport
under the finalized session id. -/
def onSessionInitialized (st : St) (apiKey sid : String) (tid : Nat) : St :=
  match st.mcpTransports.get apiKey with
  | some m =>
      { st with mcpTransports := st.mcpTransports.set apiKey (m.set sid tid) }
  | none =>
      { st with
          mcpTransports := st.mcpTransports.set apiKey (Rec.set [] sid tid),
          mcpServers := st.mcpServers.set apiKey [] }

/-- The `newTransport.onclose` callback (lines 100-107).  `tSid` is the
closing transport `sessionId` field at the moment the signal fires
(`none` while unset). -/
def mcpOnClose (st : St) (apiKey : String) (tSid : Option String) : St :=
  if truthy tSid ∧ (st.mcpTransports.get apiKey).isSome then
    match tSid, st.mcpTransports.get apiKey with
    | some sid, some m =>
        let st1 := { st with mcpTransports := st.mcpTransports.set apiKey (m.del sid) }
        match st1.mcpServers.get apiKey with
        | some ms =>
            { st1 with mcpServers := st1.mcpServers.set apiKey (ms.del sid) }
        | none => st1
    | _, _ => st
  else st

/-- The `let transport` computation of `handleMcpPost` (lines 77-78):
`sessionId && this.mcpTransports[apiKey] ? this.mcpTransports[apiKey][sessionId]
: undefined`. -/
def mcpPostTransport (st : St) (req : Req) : Option Nat :=
  if truthy req.sessionHeader ∧ (st.mcpTransports.get req.apiKey).isSome then
    match req.sessionHeader, st.mcpTransports.get req.apiKey with
    | some sid, some m => m.get sid
    | _, _ => none
  else none

/-- Embedding of `handleMcpPost` (lines 65-124).  `freshSid` is the session id the SDK
transport generates (via the supplied `randomUUID` generator) while handling
the initialize request; handling that request stores it on the transport and
invokes `onsessioninitialized` with it. -/
def handleMcpPost (st : St) (req : Req) (freshSid : String) : McpPostOut :=
  if req.apiKey.isEmpty then
    { state := st, res := .errApiKey, forwards := [] }
  else
    let sessionId := req.sessionHeader
    let transport : Option Nat := mcpPostTransport st req
    match transport with
    | some t =>
        { state := st, res := .forwarded t, forwards := [(t, req)] }
    | none =>
      if !truthy sessionId && req.isInit then
        let tid := st.nextTransport
        let srv := st.nextServer
        let st1 := { st with
            nextTransport := st.nextTransport + 1,
            nextServer := st.nextServer + 1 }
        let st2 :=
          match st1.mcpServers.get req.apiKey with
          | some _ => st1
          | none => { st1 with mcpServers := st1.mcpServers.set req.apiKey [] }
        let key := (none : Option String).getD "pending"
        let st3 := { st2 with
            mcpServers := st2.mcpServers.set req.apiKey
              (((st2.mcpServers.get req.apiKey).getD []).set key srv) }
        let st4 := { st3 with bindings := st3.bindings ++ [(tid, srv)] }
        let st5 := onSessionInitialized st4 req.apiKey freshSid tid
        { state := st5, res := .created tid srv freshSid, forwards := [(tid, req)] }
      else
        { state := st, res := .errNoSession, forwards := [] }

/-- Outcome of `handleMcpSession` (GET and DELETE, lines 126-141). -/
inductive SessionRes
  | errApiKey
  | errInvalidSession
  | forwarded (t : Nat)
  deriving DecidableEq, Repr

/-- Embedding of `handleMcpSession` (lines 126-141): session-only endpoint; never mutates
the registry. -/
def handleMcpSession (st : St) (req : Req) : St × SessionRes :=
  if req.apiKey.isEmpty then (st, .errApiKey)
  else
    let found : Option Nat :=
      match req.sessionHeader with
      | none => none
      | some sid =>
        if sid.isEmpty then none
        else
          match st.mcpTransports.get req.apiKey with
          | none => none
          | some m => m.get sid
    match found with
    | none => (st, .errInvalidSession)
    | some t => (st, .forwarded t)

/-- Outcome of `handleSseGet` (lines 143-170). -/
inductive SseGetRes
  | errApiKey
  | opened (t : Nat) (srv : Nat) (sid : String)
  deriving DecidableEq, Repr

/-- Embedding of `handleSseGet` (lines 143-170).  The per-tenant server is created lazily
once and then reused; the SSE transport synchronously generated session id
is `freshSid`. -/
def handleSseGet (st : St) (req : Req) (freshSid : String) : St × SseGetRes :=
  if req.apiKey.isEmpty then (st, .errApiKey)
  else
    let srvAlloc : St × Nat :=
      match st.sseServers.get req.apiKey with
      | some s => (st, s)
      | none =>
          ({ st with
              sseServers := st.sseServers.set req.apiKey st.nextServer,
              nextServer := st.nextServer + 1 }, st.nextServer)
    let st1 := srvAlloc.1
    let srv := srvAlloc.2
    let st2 :=
      match st1.sseTransports.get req.apiKey with
      | some _ => st1
      | none => { st1 with sseTransports := st1.sseTransports.set req.apiKey [] }
    let tid := st2.nextTransport
    let st3 := { st2 with
        nextTransport := st2.nextTransport + 1,
        sseTransports := st2.sseTransports.set req.apiKey
          (((st2.sseTransports.get req.apiKey).getD []).set freshSid tid) }
    let st4 := { st3 with bindings := st3.bindings ++ [(tid, srv)] }
    (st4, .opened tid srv freshSid)

/-- The `res.on("close", ...)` callback registered by `handleSseGet`
(lines 163-167). -/
def sseOnClose (st : St) (apiKey sid : String) : St :=
  match st.sseTransports.get apiKey with
  | none => st
  | some m => { st with sseTransports := st.sseTransports.set apiKey (m.del sid) }

/-- Outcome of `handleSseMessages` (lines 172-186). -/
inductive SseMsgRes
  | errApiKey
  | forwarded (t : Nat)
  | errNoTransport
  deriving DecidableEq, Repr

/-- Embedding of `handleSseMessages` (lines 172-186): optional-chained lookup of the query
session id; never mutates the registry. -/
def handleSseMessages (st : St) (req : Req) : St × SseMsgRes :=
  if req.apiKey.isEmpty then (st, .errApiKey)
  else
    let transport : Option Nat :=
      match st.sseTransports.get req.apiKey with
      | none => none
      | some m =>
        match req.sessionQuery with
        | none => none
        | some sid => m.get sid
    match transport with
    | some t => (st, .forwarded t)
    | none => (st, .errNoTransport)

/-- Registry lookup in the streamable-transport registry. -/
def mcpLookup (st : St) (apiKey sid : String) : Option Nat :=
  match st.mcpTransports.get apiKey with
  | none => none
  | some m => m.get sid

/-- Registry lookup in the streamable handler/server registry. -/
def srvLookup (st : St) (apiKey sid : String) : Option Nat :=
  match st.mcpServers.get apiKey with
  | none => none
  | some m => m.get sid

/-- Registry lookup in the SSE transport registry. -/
def sseLookup (st : St) (apiKey sid : String) : Option Nat :=
  match st.sseTransports.get apiKey with
  | none => none
  | some m => m.get sid

/-- An HTTP rejection body as the handlers write it: either the JSON-RPC
error envelope (`res.json({ jsonrpc, error: { code, message }, id: null })`)
or a plain-text body (`res.send(...)`). -/
inductive Body
  | envelope (jsonrpc : String) (code : Int) (msg : String) (idNull : Bool)
  | text (msg : String)
  deriving DecidableEq, Repr

/-- Whether a rejection body is the structured JSON-RPC error envelope. -/
def Body.isEnvelope : Body → Bool
  | .envelope _ _ _ _ => true
  | .text _ => false

/-- The numeric error code carried by a rejection body, when it has one. -/
def Body.errCode : Body → Option Int
  | .envelope _ c _ _ => some c
  | .text _ => none

/-- Rejection body written by `handleMcpPost` (lines 67-73 and 119-123);
`none` for the non-rejection outcomes, whose responses the transport writes
itself. -/
def mcpPostBody : McpPostRes → Option Body
  | .errApiKey =>
      some (.envelope "2.0" (-32000) "Bad Request: API key is required" true)
  | .errNoSession =>
      some (.envelope "2.0" (-32000) "Bad Request: No valid session ID provided" true)
  | _ => none

/-- Rejection body written by `handleMcpSession` (lines 129 and 135). -/
def sessionBody : SessionRes → Option Body
  | .errApiKey => some (.text "API key is required")
  | .errInvalidSession => some (.text "Invalid or missing session ID")
  | .forwarded _ => none

/-- Rejection body written by `handleSseGet` (line 146). -/
def sseGetBody : SseGetRes → Option Body
  | .errApiKey => some (.text "API key is required")
  | .opened _ _ _ => none

/-- Rejection body written by `handleSseMessages` (lines 175 and 184). -/
def sseMsgBody : SseMsgRes → Option Body
  | .errApiKey => some (.text "API key is required")
  | .errNoTransport => some (.text "No transport found for sessionId")
  | .forwarded _ => none

/-- After `onsessioninitialized` runs, the new transport is registered under
the finalized session id. -/
theorem onSessionInitialized_lookup (st : St) (a sid : String) (tid : Nat) :
    mcpLookup (onSessionInitialized st a sid tid) a sid = some tid := by
  unfold onSessionInitialized mcpLookup
  cases hm : st.mcpTransports.get a with
  | none => simp [Rec.get_set_self, Rec.get, Rec.set]
  | some m => simp [Rec.get_set_self]

/-- The callback `onsessioninitialized` changes no transport-registry entry other than the
one it registers. -/
theorem onSessionInitialized_frame (st : St) (a sid : String) (tid : Nat)
    (a1 s1 : String) (h : ¬ (a1 = a ∧ s1 = sid)) :
    mcpLookup (onSessionInitialized st a sid tid) a1 s1 = mcpLookup st a1 s1 := by
  unfold onSessionInitialized mcpLookup
  by_cases ha : a1 = a
  · subst ha
    have hs : s1 ≠ sid := fun hh => h ⟨rfl, hh⟩
    cases hm : st.mcpTransports.get a1 with
    | none =>
        have hss : ¬ (sid = s1) := fun hh => hs hh.symm
        simp [Rec.get_set_self, Rec.set, Rec.get, hm, hss]
    | some m => simp [Rec.get_set_self, Rec.get_set_ne _ _ _ _ hs, hm]
  · cases hm : st.mcpTransports.get a with
    | none => simp [Rec.get_set_ne _ _ _ _ ha]
    | some m => simp [Rec.get_set_ne _ _ _ _ ha]

/-- With a falsy (absent or empty) session header the hot-path lookup yields
no transport. -/
theorem mcpPostTransport_of_falsy (st : St) (req : Req)
    (h : truthy req.sessionHeader = false) : mcpPostTransport st req = none := by
  simp [mcpPostTransport, h]

/-- With a truthy session header that is not registered for the tenant, the
hot-path lookup yields no transport. -/
theorem mcpPostTransport_of_miss (st : St) (req : Req) (sid : String)
    (hsid : req.sessionHeader = some sid)
    (hmiss : mcpLookup st req.apiKey sid = none) : mcpPostTransport st req = none := by
  unfold mcpPostTransport
  unfold mcpLookup at hmiss
  cases hm : st.mcpTransports.get req.apiKey with
  | none => simp [hm]
  | some m =>
      rw [hm] at hmiss
      simp [hsid, hm]
      intro _
      exact hmiss

/-- Characterization of the admission path of `handleMcpPost` (lines 85-116):
with a non-empty tenant key, a falsy session header and an initialize body,
the call allocates a fresh transport and a fresh server, stores the server
under the placeholder key `"pending"`, records the
`connectTransport` binding, runs `onsessioninitialized` with the generated
session id, and forwards the triggering request once to the new transport. -/
theorem handleMcpPost_create_eq (st : St) (req : Req) (freshSid : String)
    (hkey : req.apiKey.isEmpty = false)
    (hhdr : truthy req.sessionHeader = false)
    (hinit : req.isInit = true) :
    handleMcpPost st req freshSid =
      { state := onSessionInitialized
          { st with
              nextTransport := st.nextTransport + 1,
              nextServer := st.nextServer + 1,
              mcpServers := st.mcpServers.set req.apiKey
                (((st.mcpServers.get req.apiKey).getD []).set "pending" st.nextServer),
              bindings := st.bindings ++ [(st.nextTransport, st.nextServer)] }
          req.apiKey freshSid st.nextTransport,
        res := .created st.nextTransport st.nextServer freshSid,
        forwards := [(st.nextTransport, req)] } := by
  unfold handleMcpPost
  rw [mcpPostTransport_of_falsy st req hhdr]
  cases hms : st.mcpServers.get req.apiKey with
  | none => simp [hkey, hhdr, hinit, hms, Rec.get_set_self, Rec.set_set]
  | some m => simp [hkey, hhdr, hinit, hms]

/-- The handler `handleMcpPost` reports a created session only from the admission branch:
the tenant key was non-empty, the session header falsy, the body an
initialize message, and the reported ids are the fresh ones. -/
theorem handleMcpPost_created_inv (st : St) (req : Req) (freshSid : String)
    (t s : Nat) (sid : String)
    (h : (handleMcpPost st req freshSid).res = .created t s sid) :
    req.apiKey.isEmpty = false ∧ truthy req.sessionHeader = false
      ∧ req.isInit = true := by
  by_cases hkey : req.apiKey.isEmpty
  · simp [handleMcpPost, hkey] at h
  · refine ⟨by simpa using hkey, ?_⟩
    revert h
    unfold handleMcpPost
    cases htr : mcpPostTransport st req with
    | some t1 => simp [hkey]
    | none =>
        by_cases hhdr : truthy req.sessionHeader
        · simp [hkey, hhdr]
        · by_cases hinit : req.isInit
          · intro _
            exact ⟨by simpa using hhdr, hinit⟩
          · simp [hkey, hhdr, hinit]

/-- Claim C1: for a POST to the streamable session endpoint with a non-empty
tenant key, a new session (transport and handler pair) is created if and only
if the request carries no session identifier and its body is recognized as an
initialize message; in that case the session id freshly generated for it was
previously absent, exactly one new transport-registry entry appears (the new
transport under that id, every other entry unchanged), and that same request
is forwarded exactly once, to the newly created transport. -/
theorem C1_streamable_admission (st : St) (req : Req) (freshSid : String)
    (hkey : req.apiKey.isEmpty = false)
    (hfresh : mcpLookup st req.apiKey freshSid = none) :
    ((∃ t s sid, (handleMcpPost st req freshSid).res = .created t s sid) ↔
      (truthy req.sessionHeader = false ∧ req.isInit = true))
    ∧ (truthy req.sessionHeader = false → req.isInit = true →
        mcpLookup st req.apiKey freshSid = none
        ∧ mcpLookup (handleMcpPost st req freshSid).state req.apiKey freshSid
            = some st.nextTransport
        ∧ (∀ a s, ¬ (a = req.apiKey ∧ s = freshSid) →
            mcpLookup (handleMcpPost st req freshSid).state a s = mcpLookup st a s)
        ∧ (handleMcpPost st req freshSid).forwards = [(st.nextTransport, req)]) := by
  constructor
  · constructor
    · rintro ⟨t, s, sid, h⟩
      exact (handleMcpPost_created_inv st req freshSid t s sid h).2
    · rintro ⟨hhdr, hinit⟩
      exact ⟨st.nextTransport, st.nextServer, freshSid, by
        rw [handleMcpPost_create_eq st req freshSid hkey hhdr hinit]⟩
  · intro hhdr hinit
    rw [handleMcpPost_create_eq st req freshSid hkey hhdr hinit]
    refine ⟨hfresh, onSessionInitialized_lookup _ _ _ _, ?_, rfl⟩
    intro a s hne
    exact (onSessionInitialized_frame _ _ _ _ a s hne).trans rfl

/-- Witness for C1: a concrete initializing request with no session header on
the empty registry creates a session and is forwarded once to the new
transport. -/
theorem C1_streamable_admission_witness :
    (∃ t s sid, (handleMcpPost St.empty ⟨"acme", none, none, true, 0⟩ "s1").res
        = McpPostRes.created t s sid)
    ∧ (handleMcpPost St.empty ⟨"acme", none, none, true, 0⟩ "s1").forwards
        = [(0, ⟨"acme", none, none, true, 0⟩)] := by
  have h := C1_streamable_admission St.empty ⟨"acme", none, none, true, 0⟩ "s1"
    (by decide) (by decide)
  exact ⟨h.1.mpr ⟨rfl, rfl⟩, (h.2 rfl rfl).2.2.2⟩

/-- Claim C2: a request carrying a session identifier that does not resolve
to a live registry entry for its tenant and transport kind yields the
structured no-valid-session (streamable POST) or no-transport-found (SSE
message POST) rejection and creates no session: the registry state is
untouched — even when the body would qualify as an initialize message
(`req.isInit` is unconstrained). -/
theorem C2_unknown_session_rejected (st : St) (req : Req) (freshSid sid : String)
    (hkey : req.apiKey.isEmpty = false)
    (hsid : req.sessionHeader = some sid)
    (hne : sid.isEmpty = false)
    (hmiss : mcpLookup st req.apiKey sid = none)
    (hquery : req.sessionQuery = some sid)
    (hmissSse : sseLookup st req.apiKey sid = none) :
    (handleMcpPost st req freshSid).res = .errNoSession
    ∧ (handleMcpPost st req freshSid).state = st
    ∧ handleSseMessages st req = (st, .errNoTransport) := by
  have htr := mcpPostTransport_of_miss st req sid hsid hmiss
  have htruthy : truthy req.sessionHeader = true := by simp [hsid, truthy, hne]
  have hout : handleMcpPost st req freshSid
      = { state := st, res := .errNoSession, forwards := [] } := by
    unfold handleMcpPost
    simp [hkey, htr, htruthy]
  refine ⟨by rw [hout], by rw [hout], ?_⟩
  unfold handleSseMessages
  unfold sseLookup at hmissSse
  cases hm : st.sseTransports.get req.apiKey with
  | none => simp [hkey, hm]
  | some m =>
      simp only [hm] at hmissSse
      simp [hkey, hm, hquery, hmissSse]

/-- Witness for C2: a request for tenant acme carrying the unknown session id
u, with an initialize body, is rejected on both endpoints and the empty
registry is unchanged. -/
theorem C2_unknown_session_rejected_witness :
    (handleMcpPost St.empty ⟨"acme", some "u", some "u", true, 0⟩ "s1").res
        = McpPostRes.errNoSession
    ∧ (handleMcpPost St.empty ⟨"acme", some "u", some "u", true, 0⟩ "s1").state
        = St.empty
    ∧ handleSseMessages St.empty ⟨"acme", some "u", some "u", true, 0⟩
        = (St.empty, SseMsgRes.errNoTransport) :=
  C2_unknown_session_rejected St.empty ⟨"acme", some "u", some "u", true, 0⟩
    "s1" "u" (by decide) rfl (by decide) (by decide) rfl (by decide)

/-- The streamable close callback is a no-op while the transport session id
is still falsy (unset or empty). -/
theorem mcpOnClose_none_of_falsy (st : St) (a : String) (tSid : Option String)
    (h : truthy tSid = false) : mcpOnClose st a tSid = st := by
  unfold mcpOnClose
  simp [h]

/-- The streamable close callback is a no-op while the tenant transport
sub-record does not exist. -/
theorem mcpOnClose_none_of_absent (st : St) (a : String) (tSid : Option String)
    (h : st.mcpTransports.get a = none) : mcpOnClose st a tSid = st := by
  unfold mcpOnClose
  simp [h]

/-- Evaluation of the streamable close callback when both the transport
sub-record and the server sub-record of the tenant exist. -/
theorem mcpOnClose_eq_both (st : St) (a sid : String) (m ms : Rec Nat)
    (hne : sid.isEmpty = false)
    (hm : st.mcpTransports.get a = some m)
    (hms : st.mcpServers.get a = some ms) :
    mcpOnClose st a (some sid)
      = { st with mcpTransports := st.mcpTransports.set a (m.del sid),
                  mcpServers := st.mcpServers.set a (ms.del sid) } := by
  unfold mcpOnClose
  simp [hm, hms, truthy, hne]

/-- Evaluation of the streamable close callback when the tenant server
sub-record does not exist. -/
theorem mcpOnClose_eq_noServers (st : St) (a sid : String) (m : Rec Nat)
    (hne : sid.isEmpty = false)
    (hm : st.mcpTransports.get a = some m)
    (hms : st.mcpServers.get a = none) :
    mcpOnClose st a (some sid)
      = { st with mcpTransports := st.mcpTransports.set a (m.del sid) } := by
  unfold mcpOnClose
  simp [hm, hms, truthy, hne]

/-- After the streamable close callback fires with a finalized non-empty
session id, the transport registry lookup for it is absent. -/
theorem mcpOnClose_lookup_self (st : St) (a sid : String)
    (hne : sid.isEmpty = false) :
    mcpLookup (mcpOnClose st a (some sid)) a sid = none := by
  cases hm : st.mcpTransports.get a with
  | none =>
      rw [mcpOnClose_none_of_absent _ _ _ hm]
      simp [mcpLookup, hm]
  | some m =>
      cases hms : st.mcpServers.get a with
      | some ms =>
          rw [mcpOnClose_eq_both st a sid m ms hne hm hms]
          simp [mcpLookup]
      | none =>
          rw [mcpOnClose_eq_noServers st a sid m hne hm hms]
          simp [mcpLookup]

/-- The streamable close callback is idempotent: firing it a second time
changes nothing. -/
theorem mcpOnClose_idem (st : St) (a : String) (tSid : Option String) :
    mcpOnClose (mcpOnClose st a tSid) a tSid = mcpOnClose st a tSid := by
  by_cases hf : truthy tSid = false
  · rw [mcpOnClose_none_of_falsy _ _ _ hf, mcpOnClose_none_of_falsy _ _ _ hf]
  · cases tSid with
    | none => simp [truthy] at hf
    | some sid =>
      have hne : sid.isEmpty = false := by
        cases hs : sid.isEmpty
        · rfl
        · exact absurd (by simp [truthy, hs]) hf
      cases hm : st.mcpTransports.get a with
      | none =>
          rw [mcpOnClose_none_of_absent _ _ _ hm, mcpOnClose_none_of_absent _ _ _ hm]
      | some m =>
          cases hms : st.mcpServers.get a with
          | some ms =>
              rw [mcpOnClose_eq_both st a sid m ms hne hm hms]
              rw [mcpOnClose_eq_both _ a sid (m.del sid) (ms.del sid) hne
                (by simp) (by simp)]
              simp
          | none =>
              rw [mcpOnClose_eq_noServers st a sid m hne hm hms]
              rw [mcpOnClose_eq_noServers _ a sid (m.del sid) hne (by simp)
                (by simpa using hms)]
              simp

/-- The streamable close callback changes no registry entry (transport or
server map) other than the one of the closed session. -/
theorem mcpOnClose_frame (st : St) (a sid : String) (a1 s1 : String)
    (h : ¬ (a1 = a ∧ s1 = sid)) :
    mcpLookup (mcpOnClose st a (some sid)) a1 s1 = mcpLookup st a1 s1
    ∧ srvLookup (mcpOnClose st a (some sid)) a1 s1 = srvLookup st a1 s1 := by
  by_cases hemp : sid.isEmpty
  · rw [mcpOnClose_none_of_falsy _ _ _ (by simp [truthy, hemp])]
    exact ⟨rfl, rfl⟩
  · have hne : sid.isEmpty = false := by simpa using hemp
    cases hm : st.mcpTransports.get a with
    | none =>
        rw [mcpOnClose_none_of_absent _ _ _ hm]
        exact ⟨rfl, rfl⟩
    | some m =>
        by_cases ha : a1 = a
        · subst ha
          have hs : s1 ≠ sid := fun hh => h ⟨rfl, hh⟩
          cases hms : st.mcpServers.get a1 with
          | some ms =>
              rw [mcpOnClose_eq_both st a1 sid m ms hne hm hms]
              exact ⟨by simp [mcpLookup, hm, Rec.get_del_ne m sid s1 hs],
                     by simp [srvLookup, hms, Rec.get_del_ne ms sid s1 hs]⟩
          | none =>
              rw [mcpOnClose_eq_noServers st a1 sid m hne hm hms]
              exact ⟨by simp [mcpLookup, hm, Rec.get_del_ne m sid s1 hs], rfl⟩
        · cases hms : st.mcpServers.get a with
          | some ms =>
              rw [mcpOnClose_eq_both st a sid m ms hne hm hms]
              exact ⟨by simp [mcpLookup, Rec.get_set_ne _ _ _ _ ha],
                     by simp [srvLookup, Rec.get_set_ne _ _ _ _ ha]⟩
          | none =>
              rw [mcpOnClose_eq_noServers st a sid m hne hm hms]
              exact ⟨by simp [mcpLookup, Rec.get_set_ne _ _ _ _ ha], rfl⟩

/-- The SSE close callback is a no-op while the tenant transport sub-record
does not exist. -/
theorem sseOnClose_of_absent (st : St) (a sid : String)
    (h : st.sseTransports.get a = none) : sseOnClose st a sid = st := by
  unfold sseOnClose
  simp [h]

/-- Evaluation of the SSE close callback when the tenant transport
sub-record exists. -/
theorem sseOnClose_eq (st : St) (a sid : String) (m : Rec Nat)
    (hm : st.sseTransports.get a = some m) :
    sseOnClose st a sid
      = { st with sseTransports := st.sseTransports.set a (m.del sid) } := by
  unfold sseOnClose
  simp [hm]

/-- After the SSE close callback fires, the SSE registry lookup for the
closed session is absent. -/
theorem sseOnClose_lookup_self (st : St) (a sid : String) :
    sseLookup (sseOnClose st a sid) a sid = none := by
  cases hm : st.sseTransports.get a with
  | none =>
      rw [sseOnClose_of_absent _ _ _ hm]
      simp [sseLookup, hm]
  | some m =>
      rw [sseOnClose_eq st a sid m hm]
      simp [sseLookup]

/-- The SSE close callback is idempotent. -/
theorem sseOnClose_idem (st : St) (a sid : String) :
    sseOnClose (sseOnClose st a sid) a sid = sseOnClose st a sid := by
  cases hm : st.sseTransports.get a with
  | none => rw [sseOnClose_of_absent _ _ _ hm, sseOnClose_of_absent _ _ _ hm]
  | some m =>
      rw [sseOnClose_eq st a sid m hm]
      rw [sseOnClose_eq _ a sid (m.del sid) (by simp)]
      simp

/-- The SSE close callback changes no other SSE registry entry. -/
theorem sseOnClose_frame (st : St) (a sid : String) (a1 s1 : String)
    (h : ¬ (a1 = a ∧ s1 = sid)) :
    sseLookup (sseOnClose st a sid) a1 s1 = sseLookup st a1 s1 := by
  cases hm : st.sseTransports.get a with
  | none => rw [sseOnClose_of_absent _ _ _ hm]
  | some m =>
      rw [sseOnClose_eq st a sid m hm]
      by_cases ha : a1 = a
      · subst ha
        have hs : s1 ≠ sid := fun hh => h ⟨rfl, hh⟩
        simp [sseLookup, hm, Rec.get_del_ne m sid s1 hs]
      · simp [sseLookup, Rec.get_set_ne _ _ _ _ ha]

/-- Claim C3: for either transport kind, once the close callback fires for a
session with a (non-empty) finalized id, the registry lookup of that
(tenant, session id, kind) is absent; firing the close-triggered removal a
second time — removal of an already-absent entry — is a no-op that raises no
error, and the removal changes no other registry entry. -/
theorem C3_close_removal (st : St) (a sid : String)
    (hne : sid.isEmpty = false) :
    (mcpLookup (mcpOnClose st a (some sid)) a sid = none
      ∧ mcpOnClose (mcpOnClose st a (some sid)) a (some sid)
          = mcpOnClose st a (some sid)
      ∧ ∀ a1 s1, ¬ (a1 = a ∧ s1 = sid) →
          mcpLookup (mcpOnClose st a (some sid)) a1 s1 = mcpLookup st a1 s1
          ∧ srvLookup (mcpOnClose st a (some sid)) a1 s1 = srvLookup st a1 s1)
    ∧ (sseLookup (sseOnClose st a sid) a sid = none
      ∧ sseOnClose (sseOnClose st a sid) a sid = sseOnClose st a sid
      ∧ ∀ a1 s1, ¬ (a1 = a ∧ s1 = sid) →
          sseLookup (sseOnClose st a sid) a1 s1 = sseLookup st a1 s1) :=
  ⟨⟨mcpOnClose_lookup_self st a sid hne, mcpOnClose_idem st a (some sid),
    fun a1 s1 h => mcpOnClose_frame st a sid a1 s1 h⟩,
   ⟨sseOnClose_lookup_self st a sid, sseOnClose_idem st a sid,
    fun a1 s1 h => sseOnClose_frame st a sid a1 s1 h⟩⟩

/-- A concrete populated registry: tenant acme holds session s1 of both kinds
and session s2 of the streamable kind. -/
def stA : St :=
  ⟨[("acme", [("s1", 0), ("s2", 1)])], [("acme", [("s1", 5)])],
   [("acme", [("s1", 7)])], [("acme", 9)], 2, 10, [(0, 5), (7, 9)]⟩

/-- Witness for C3 on the populated registry `stA`: closing session s1 of
either kind makes its lookup absent, a second firing changes nothing, and the
streamable sibling session s2 is untouched. -/
theorem C3_close_removal_witness :
    mcpLookup (mcpOnClose stA "acme" (some "s1")) "acme" "s1" = none
    ∧ mcpOnClose (mcpOnClose stA "acme" (some "s1")) "acme" (some "s1")
        = mcpOnClose stA "acme" (some "s1")
    ∧ sseLookup (sseOnClose stA "acme" "s1") "acme" "s1" = none
    ∧ mcpLookup (mcpOnClose stA "acme" (some "s1")) "acme" "s2"
        = mcpLookup stA "acme" "s2" := by
  have h := C3_close_removal stA "acme" "s1" (by decide)
  exact ⟨h.1.1, h.1.2.1, h.2.1, (h.1.2.2 "acme" "s2" (by decide)).1⟩

/-- Claim C10: if the streamable close callback fires while the transport
session id is still unset, or while the tenant transport sub-record does
not exist, it performs no removal and raises no error: the registry state is
returned entirely unchanged. -/
theorem C10_close_before_init (st : St) (a : String) (tSid : Option String) :
    mcpOnClose st a none = st
    ∧ (st.mcpTransports.get a = none → mcpOnClose st a tSid = st) :=
  ⟨mcpOnClose_none_of_falsy st a none rfl,
   fun h => mcpOnClose_none_of_absent st a tSid h⟩

/-- Witness for C10: on the populated registry `stA`, a close for the
unknown tenant zeta (transport sub-record absent) and a close with an unset
session id both leave the state untouched. -/
theorem C10_close_before_init_witness :
    mcpOnClose stA "zeta" none = stA
    ∧ mcpOnClose stA "zeta" (some "s1") = stA := by
  have h := C10_close_before_init stA "zeta" (some "s1")
  exact ⟨h.1, h.2 (by decide)⟩

/-- Claim C6: on the session-only endpoints — session status query and
explicit termination (`handleMcpSession`) and out-of-band stream message
(`handleSseMessages`) — a missing or unrecognized session identifier yields
an immediate rejection, and never any session creation: the registry state is
returned unchanged. -/
theorem C6_session_only_endpoints (st : St) (req : Req)
    (hkey : req.apiKey.isEmpty = false)
    (hmcp : ∀ sid, req.sessionHeader = some sid →
        sid.isEmpty = true ∨ mcpLookup st req.apiKey sid = none)
    (hsse : ∀ sid, req.sessionQuery = some sid →
        sseLookup st req.apiKey sid = none) :
    handleMcpSession st req = (st, .errInvalidSession)
    ∧ handleSseMessages st req = (st, .errNoTransport) := by
  constructor
  · unfold handleMcpSession
    cases hh : req.sessionHeader with
    | none => simp [hkey]
    | some sid =>
        rcases hmcp sid hh with he | hl
        · simp [hkey, he]
        · unfold mcpLookup at hl
          cases hm : st.mcpTransports.get req.apiKey with
          | none => simp [hkey, hm]
          | some m =>
              simp only [hm] at hl
              by_cases he : sid.isEmpty
              · simp [hkey, he]
              · simp [hkey, he, hm, hl]
  · unfold handleSseMessages
    cases hm : st.sseTransports.get req.apiKey with
    | none => simp [hkey, hm]
    | some m =>
        cases hq : req.sessionQuery with
        | none => simp [hkey, hm]
        | some sid =>
            have hl := hsse sid hq
            unfold sseLookup at hl
            simp only [hm] at hl
            simp [hkey, hm, hl]

/-- Witness for C6: on the populated registry `stA`, the unknown session id
zz is rejected by both session-only endpoints and the state is unchanged. -/
theorem C6_session_only_endpoints_witness :
    handleMcpSession stA ⟨"acme", some "zz", some "zz", false, 0⟩
        = (stA, SessionRes.errInvalidSession)
    ∧ handleSseMessages stA ⟨"acme", some "zz", some "zz", false, 0⟩
        = (stA, SseMsgRes.errNoTransport) :=
  C6_session_only_endpoints stA ⟨"acme", some "zz", some "zz", false, 0⟩
    (by decide)
    (fun sid h => by
      injection h with h1
      subst h1
      exact Or.inr (by decide))
    (fun sid h => by
      injection h with h1
      subst h1
      decide)

/-- Claim C7: every request that terminates in a routing error mutates no
registry map.  A rejection of `handleMcpPost` (missing tenant key or no valid
session), any outcome of the session-only endpoints, and the missing-key
rejection of the stream-open endpoint all leave the full registry state
exactly as it was. -/
theorem C7_rejections_frame (st : St) (req : Req) (freshSid : String) :
    ((handleMcpPost st req freshSid).res = .errApiKey
        ∨ (handleMcpPost st req freshSid).res = .errNoSession →
      (handleMcpPost st req freshSid).state = st)
    ∧ (handleMcpSession st req).1 = st
    ∧ (handleSseMessages st req).1 = st
    ∧ (req.apiKey.isEmpty = true → (handleSseGet st req freshSid).1 = st) := by
  refine ⟨?_, ?_, ?_, ?_⟩
  · intro h
    by_cases hkey : req.apiKey.isEmpty
    · unfold handleMcpPost
      simp [hkey]
    · cases htr : mcpPostTransport st req with
      | some t =>
          exfalso
          unfold handleMcpPost at h
          simp [hkey, htr] at h
      | none =>
          by_cases hc : (!truthy req.sessionHeader && req.isInit) = true
          · exfalso
            unfold handleMcpPost at h
            simp [hkey, htr, hc] at h
          · unfold handleMcpPost
            simp [hkey, htr, hc]
  · unfold handleMcpSession
    by_cases hkey : req.apiKey.isEmpty
    · simp [hkey]
    · cases hh : req.sessionHeader with
      | none => simp [hkey]
      | some sid =>
          by_cases he : sid.isEmpty
          · simp [hkey, he]
          · cases hm : st.mcpTransports.get req.apiKey with
            | none => simp [hkey, he, hm]
            | some m => cases hg : m.get sid <;> simp [hkey, he, hm, hg]
  · unfold handleSseMessages
    by_cases hkey : req.apiKey.isEmpty
    · simp [hkey]
    · cases hm : st.sseTransports.get req.apiKey with
      | none => simp [hkey, hm]
      | some m =>
          cases hq : req.sessionQuery with
          | none => simp [hkey, hm]
          | some sid => cases hg : m.get sid <;> simp [hkey, hm, hq, hg]
  · intro hkey
    unfold handleSseGet
    simp [hkey]

/-- Witness for C7: concrete rejected requests — a missing tenant key on the
streamable POST and stream-open endpoints, and a missing session id on the
session endpoint — leave the registries untouched. -/
theorem C7_rejections_frame_witness :
    (handleMcpPost St.empty ⟨"", none, none, true, 0⟩ "s").state = St.empty
    ∧ (handleMcpSession stA ⟨"acme", none, none, false, 0⟩).1 = stA
    ∧ (handleSseGet stA ⟨"", none, none, false, 0⟩ "s").1 = stA := by
  refine ⟨(C7_rejections_frame St.empty ⟨"", none, none, true, 0⟩ "s").1
      (Or.inl rfl), ?_, ?_⟩
  · exact (C7_rejections_frame stA ⟨"acme", none, none, false, 0⟩ "s").2.1
  · exact (C7_rejections_frame stA ⟨"", none, none, false, 0⟩ "s").2.2.2 rfl

/-- First streamable admission for tenant acme on the empty registry; the SDK
generates session id s1. -/
def admit1 : McpPostOut := handleMcpPost St.empty ⟨"acme", none, none, true, 0⟩ "s1"

/-- Second streamable admission for tenant acme (generated id s2). -/
def admit2 : McpPostOut := handleMcpPost admit1.state ⟨"acme", none, none, true, 1⟩ "s2"

/-- Third streamable admission for tenant acme (generated id s3). -/
def admit3 : McpPostOut := handleMcpPost admit2.state ⟨"acme", none, none, true, 2⟩ "s3"

/-- Claim C4 fails on the code: after the second streamable admission for
tenant acme has finalized its session id s2, the handler/server registry
still holds that session handler under the placeholder key "pending" and
holds nothing under the real id s2; only the transport registry is keyed by
the real id.  (The first admission even loses its handler entry: the
`onsessioninitialized` callback resets `mcpServers[apiKey]` when it creates
`mcpTransports[apiKey]`.) -/
theorem C4_pending_persists :
    srvLookup admit2.state "acme" "pending" = some 1
    ∧ srvLookup admit2.state "acme" "s2" = none
    ∧ mcpLookup admit2.state "acme" "s2" = some 1
    ∧ srvLookup admit1.state "acme" "pending" = none
    ∧ srvLookup admit1.state "acme" "s1" = none := ⟨rfl, rfl, rfl, rfl, rfl⟩

/-- First SSE stream open for tenant acme on the empty registry (the SSE
transport synchronously generates session id e1). -/
def sseOpen1 : St × SseGetRes :=
  handleSseGet St.empty ⟨"acme", none, none, false, 0⟩ "e1"

/-- Second SSE stream open for tenant acme (generated id e2). -/
def sseOpen2 : St × SseGetRes :=
  handleSseGet sseOpen1.1 ⟨"acme", none, none, false, 1⟩ "e2"

/-- Counterexample to claim C5: two distinct SSE sessions of one tenant —
session ids e1 and e2, transports 0 and 1 — are bound to one and the same
handler instance, server 0: the handler is not bound 1:1 to a single
session transport. -/
theorem C5_counterexample :
    sseOpen1.2 = SseGetRes.opened 0 0 "e1"
    ∧ sseOpen2.2 = SseGetRes.opened 1 0 "e2"
    ∧ sseOpen2.1.bindings = [(0, 0), (1, 0)] := ⟨rfl, rfl, rfl⟩

/-- The callback `onsessioninitialized` leaves the `connectTransport` binding log
untouched. -/
theorem onSessionInitialized_bindings (st : St) (a sid : String) (tid : Nat) :
    (onSessionInitialized st a sid tid).bindings = st.bindings := by
  unfold onSessionInitialized
  cases st.mcpTransports.get a <;> rfl

/-- Claim C5 as amended: for the streamable kind every admission constructs a
fresh handler, bound to no earlier transport; for the push-stream kind the
handler is per-tenant — a stream open for a tenant whose server already
exists binds that very server to the new transport — and the per-tenant
handler is not destroyed by a session close callback. -/
theorem C5_amended (st : St) (req : Req) (freshSid : String) (s : Nat)
    (hkey : req.apiKey.isEmpty = false)
    (hhdr : truthy req.sessionHeader = false)
    (hinit : req.isInit = true)
    (hwf : ∀ p ∈ st.bindings, p.2 < st.nextServer)
    (hsse : st.sseServers.get req.apiKey = some s) :
    ((handleMcpPost st req freshSid).state.bindings
        = st.bindings ++ [(st.nextTransport, st.nextServer)]
      ∧ ∀ p ∈ st.bindings, p.2 ≠ st.nextServer)
    ∧ (handleSseGet st req freshSid).1.bindings
        = st.bindings ++ [(st.nextTransport, s)]
    ∧ ∀ a sid, (sseOnClose st a sid).sseServers = st.sseServers := by
  refine ⟨⟨?_, ?_⟩, ?_, ?_⟩
  · rw [handleMcpPost_create_eq st req freshSid hkey hhdr hinit]
    rw [onSessionInitialized_bindings]
  · exact fun p hp => Nat.ne_of_lt (hwf p hp)
  · unfold handleSseGet
    cases hm : st.sseTransports.get req.apiKey with
    | none => simp [hkey, hsse, hm]
    | some m => simp [hkey, hsse, hm]
  · intro a sid
    unfold sseOnClose
    cases st.sseTransports.get a <;> rfl

/-- Witness for C5 (amended): starting from the state after the first SSE
open of tenant acme, a streamable admission binds the fresh server 1, while a
second SSE open binds the existing shared server 0. -/
theorem C5_amended_witness :
    (handleMcpPost sseOpen1.1 ⟨"acme", none, none, true, 5⟩ "m1").state.bindings
        = [(0, 0), (1, 1)]
    ∧ (handleSseGet sseOpen1.1 ⟨"acme", none, none, true, 5⟩ "m1").1.bindings
        = [(0, 0), (1, 0)] := by
  have h := C5_amended sseOpen1.1 ⟨"acme", none, none, true, 5⟩ "m1" 0
    (by decide) rfl rfl (by decide) (by decide)
  exact ⟨h.1.1, h.2.1⟩

/-- Counterexample to claim C8: after the second admission the handler slot
(acme, "pending") is occupied by server 1; the third admission inserts on
that occupied slot and silently overwrites it with server 2 — an ordinary
created outcome, not a DuplicateSession failure. -/
theorem C8_counterexample :
    srvLookup admit2.state "acme" "pending" = some 1
    ∧ admit3.res = McpPostRes.created 2 2 "s3"
    ∧ srvLookup admit3.state "acme" "pending" = some 2
    ∧ admit3.state.mcpServers = [("acme", [("pending", 2)])] :=
  ⟨rfl, rfl, rfl, rfl⟩

/-- Claim C8 as amended: a registry insert on an occupied key does not fail
loudly — there is no DuplicateSession check anywhere — it silently replaces
the occupant.  Concretely, when the streamable handler slot
(tenant, "pending") is occupied and the tenant transport sub-record exists,
a further admission returns an ordinary created outcome and overwrites the
occupied slot with the new server. -/
theorem C8_amended (st : St) (req : Req) (freshSid : String) (s0 : Nat)
    (hkey : req.apiKey.isEmpty = false)
    (hhdr : truthy req.sessionHeader = false)
    (hinit : req.isInit = true)
    (hocc : srvLookup st req.apiKey "pending" = some s0)
    (htr : (st.mcpTransports.get req.apiKey).isSome = true) :
    srvLookup st req.apiKey "pending" = some s0
    ∧ (handleMcpPost st req freshSid).res
        = .created st.nextTransport st.nextServer freshSid
    ∧ srvLookup (handleMcpPost st req freshSid).state req.apiKey "pending"
        = some st.nextServer := by
  rw [handleMcpPost_create_eq st req freshSid hkey hhdr hinit]
  refine ⟨hocc, rfl, ?_⟩
  unfold onSessionInitialized
  cases hm : st.mcpTransports.get req.apiKey with
  | none =>
      rw [hm] at htr
      simp at htr
  | some m => simp [srvLookup, hm]

/-- Witness for C8 (amended): the third admission for tenant acme overwrites
the occupied (acme, "pending") handler slot, replacing server 1 with
server 2. -/
theorem C8_amended_witness :
    srvLookup admit2.state "acme" "pending" = some 1
    ∧ (handleMcpPost admit2.state ⟨"acme", none, none, true, 2⟩ "s3").res
        = McpPostRes.created 2 2 "s3"
    ∧ srvLookup (handleMcpPost admit2.state ⟨"acme", none, none, true, 2⟩ "s3").state
        "acme" "pending" = some 2 :=
  C8_amended admit2.state ⟨"acme", none, none, true, 2⟩ "s3" 1
    (by decide) rfl rfl (by decide) (by decide)

/-- Counterexample to claim C9: the session-endpoint rejection for a missing
session id is a plain-text body, not the structured envelope, and the two
envelope rejections of the streamable POST endpoint carry one and the same
numeric code -32000 — not two distinct canonical codes. -/
theorem C9_counterexample :
    (handleMcpSession stA ⟨"acme", none, none, false, 0⟩).2
        = SessionRes.errInvalidSession
    ∧ sessionBody SessionRes.errInvalidSession
        = some (Body.text "Invalid or missing session ID")
    ∧ (Body.text "Invalid or missing session ID").isEnvelope = false
    ∧ mcpPostBody McpPostRes.errApiKey
        = some (Body.envelope "2.0" (-32000) "Bad Request: API key is required" true)
    ∧ mcpPostBody McpPostRes.errNoSession
        = some (Body.envelope "2.0" (-32000)
            "Bad Request: No valid session ID provided" true)
    ∧ (Body.envelope "2.0" (-32000) "Bad Request: API key is required" true).errCode
        = (Body.envelope "2.0" (-32000)
            "Bad Request: No valid session ID provided" true).errCode :=
  ⟨rfl, rfl, rfl, rfl, rfl, rfl⟩

/-- Claim C9 as amended: rejections of the streamable POST endpoint return
the structured envelope — protocol marker "2.0", a numeric code and message,
and a null id — with the single canonical code -32000 shared by the
missing-tenant-key and no-valid-session cases, while rejections of the
session, stream-open and stream-message endpoints return plain-text bodies,
not envelopes. -/
theorem C9_amended :
    (∀ r : McpPostRes, ∀ b : Body, mcpPostBody r = some b →
      b.isEnvelope = true ∧ b.errCode = some (-32000)
        ∧ ∃ msg, b = Body.envelope "2.0" (-32000) msg true)
    ∧ (∀ r : SessionRes, ∀ b : Body, sessionBody r = some b →
        b.isEnvelope = false)
    ∧ (∀ r : SseGetRes, ∀ b : Body, sseGetBody r = some b →
        b.isEnvelope = false)
    ∧ (∀ r : SseMsgRes, ∀ b : Body, sseMsgBody r = some b →
        b.isEnvelope = false) := by
  refine ⟨?_, ?_, ?_, ?_⟩
  · rintro r b h
    cases r with
    | errApiKey =>
        simp only [mcpPostBody, Option.some.injEq] at h
        subst h
        exact ⟨rfl, rfl, _, rfl⟩
    | errNoSession =>
        simp only [mcpPostBody, Option.some.injEq] at h
        subst h
        exact ⟨rfl, rfl, _, rfl⟩
    | forwarded t => simp [mcpPostBody] at h
    | created t s sid => simp [mcpPostBody] at h
  · rintro r b h
    cases r with
    | errApiKey =>
        simp only [sessionBody, Option.some.injEq] at h
        subst h
        rfl
    | errInvalidSession =>
        simp only [sessionBody, Option.some.injEq] at h
        subst h
        rfl
    | forwarded t => simp [sessionBody] at h
  · rintro r b h
    cases r with
    | errApiKey =>
        simp only [sseGetBody, Option.some.injEq] at h
        subst h
        rfl
    | opened t s sid => simp [sseGetBody] at h
  · rintro r b h
    cases r with
    | errApiKey =>
        simp only [sseMsgBody, Option.some.injEq] at h
        subst h
        rfl
    | errNoTransport =>
        simp only [sseMsgBody, Option.some.injEq] at h
        subst h
        rfl
    | forwarded t => simp [sseMsgBody] at h

/-- Witness for C9 (amended): the concrete missing-tenant rejection body of
the streamable POST endpoint is the -32000 envelope, and the concrete
missing-key rejection body of the session endpoint is plain text. -/
theorem C9_amended_witness :
    (Body.envelope "2.0" (-32000) "Bad Request: API key is required" true).isEnvelope
        = true
    ∧ (Body.text "API key is required").isEnvelope = false := by
  have h := C9_amended
  exact ⟨(h.1 McpPostRes.errApiKey _ rfl).1, h.2.1 SessionRes.errApiKey _ rfl⟩

end AnyCrawl
